import Mathlib

/-!
Verification of the trust / approval / sandbox-policy core of the codex
repository, shallowly embedded in Lean 4.

Embedded source files:
* `codex-rs/core/src/error.rs` — error taxonomy, `format_reset_duration`,
  `UsageLimitReachedError` display, `get_error_message_ui`;
* `codex-rs/tui/src/onboarding/trust_directory.rs` — the trust-decision
  widget and its key handling;
* `codex-rs/common/src/approval_presets.rs`, `model_presets.rs` — the
  static preset catalogues.

External collaborators (`set_project_trusted`, `resolve_root_git_project_for_trust`)
are modelled as parameters of an environment record; trust-store writes are
made observable as an explicit event list.
-/

/-! ## Countdown formatting (`format_reset_duration`, error.rs lines 164-185) -/

/-- Embedding of `format_reset_duration` from `core/src/error.rs`:
decomposes `total_secs` into days, hours and minutes, renders each nonzero
unit, joins them with a single space, and falls back to the fixed
"不到 1 分钟" ("less than one minute") phrase when all units are zero. -/
def format_reset_duration (total_secs : Nat) : String :=
  let days := total_secs / 86400
  let hours := (total_secs % 86400) / 3600
  let minutes := (total_secs % 3600) / 60
  let parts : List String :=
    (if days > 0 then [toString days ++ " 天"] else []) ++
    (if hours > 0 then [toString hours ++ " 小时"] else []) ++
    (if minutes > 0 then [toString minutes ++ " 分钟"] else [])
  if parts.isEmpty then "不到 1 分钟" else String.intercalate " " parts

/-- Spec-side countdown phrase, written from the specification's words:
"decompose total seconds into whole days, then whole hours from the
remainder, then whole minutes from the remainder (seconds below one minute
are dropped); each nonzero unit is rendered and joined with the previous by
a single space, most-significant first; if all three units are zero, render
a fixed less-than-one-minute phrase instead of an empty string." -/
def specCountdownPhrase (s : Nat) : String :=
  let days := s / 86400
  let rem1 := s % 86400
  let hours := rem1 / 3600
  let rem2 := rem1 % 3600
  let minutes := rem2 / 60
  if days = 0 ∧ hours = 0 ∧ minutes = 0 then "不到 1 分钟"
  else
    String.intercalate " "
      ((if days > 0 then [toString days ++ " 天"] else []) ++
       (if hours > 0 then [toString hours ++ " 小时"] else []) ++
       (if minutes > 0 then [toString minutes ++ " 分钟"] else []))

/-! ## Usage-limit message (`UsageLimitReachedError`, error.rs lines 128-162) -/

/-- Embedding of the `UsageLimitReachedError` struct. -/
structure UsageLimitReachedError where
  plan_type : Option String
  resets_in_seconds : Option Nat
deriving DecidableEq

/-- The base clause written by the `plan_type == "plus"` branch of
`UsageLimitReachedError::fmt` (limit reached + upgrade suggestion). -/
def upgrade_base_clause : String :=
  "已达到使用上限。升级到 Pro(https://openai.com/chatgpt/pricing)或稍后重试"

/-- The generic "limit reached" base clause of the other branch. -/
def limit_reached_clause : String := "已达到使用上限。"

/-- The generic "try again later" clause appended when `resets_in_seconds`
is absent in the non-"plus" branch. -/
def try_again_later_clause : String := "请稍后重试。"

/-- Embedding of `impl Display for UsageLimitReachedError` from
`core/src/error.rs`: the base clause depends on whether `plan_type` is
`Some("plus")`, and the suffix depends on whether `resets_in_seconds` is
present. -/
def UsageLimitReachedError.render (e : UsageLimitReachedError) : String :=
  if e.plan_type = some "plus" then
    upgrade_base_clause ++
      (match e.resets_in_seconds with
       | some secs => "，大约 " ++ format_reset_duration secs ++ " 后重置。"
       | none => "。")
  else
    limit_reached_clause ++
      (match e.resets_in_seconds with
       | some secs => "请在约 " ++ format_reset_duration secs ++ " 后重试。"
       | none => try_again_later_clause)

/-! ## Error taxonomy (`SandboxErr`, `CodexErr`, error.rs lines 11-126) -/

/-- Embedding of `SandboxErr` from `core/src/error.rs`. Payloads of the
external `seccompiler` error types are modelled as their rendered strings. -/
inductive SandboxErr where
  | Denied (exit_code : Int) (stdout : String) (stderr : String)
  | SeccompInstall (e : String)
  | SeccompBackend (e : String)
  | Timeout
  | Signal (n : Int)
  | LandlockRestrict
deriving DecidableEq

/-- The `thiserror`-derived `Display` of `SandboxErr`, message templates
taken verbatim from the `#[error(...)]` attributes. -/
def SandboxErr.render : SandboxErr → String
  | .Denied code out err =>
      "沙箱拒绝执行,退出码:" ++ toString code ++ ",stdout:" ++ out ++ ",stderr:" ++ err
  | .SeccompInstall _ => "seccomp 安装错误"
  | .SeccompBackend _ => "seccomp 后端错误"
  | .Timeout => "命令超时"
  | .Signal _ => "命令被信号终止"
  | .LandlockRestrict => "Landlock 未能完全执行所有沙箱规则"

/-- Embedding of `EnvVarError` from `core/src/error.rs`. -/
structure EnvVarError where
  var : String
  instructions : Option String
deriving DecidableEq

/-- `Display` of `EnvVarError`. -/
def EnvVarError.render (e : EnvVarError) : String :=
  "缺少环境变量:`" ++ e.var ++ "`。" ++
    (match e.instructions with
     | some instructions => " " ++ instructions
     | none => "")

/-- Embedding of `CodexErr` from `core/src/error.rs`. Payloads of external
types (`StatusCode`, `Uuid`, `Duration`, `io::Error`, `reqwest::Error`,
`serde_json::Error`, landlock and tokio errors) are modelled as their
rendered strings; the retry delay of `Stream` is modelled in milliseconds. -/
inductive CodexErr where
  | Stream (msg : String) (retry_delay_ms : Option Nat)
  | ConversationNotFound (id : String)
  | SessionConfiguredNotFirstEvent
  | Timeout
  | Spawn
  | Interrupted
  | UnexpectedStatus (status : String) (body : String)
  | UsageLimitReached (e : UsageLimitReachedError)
  | UsageNotIncluded
  | InternalServerError
  | RetryLimit (status : String)
  | InternalAgentDied
  | Sandbox (e : SandboxErr)
  | LandlockSandboxExecutableNotProvided
  | Io (e : String)
  | Reqwest (e : String)
  | Json (e : String)
  | LandlockRuleset (e : String)
  | LandlockPathFd (e : String)
  | TokioJoin (e : String)
  | EnvVar (e : EnvVarError)
deriving DecidableEq

/-- The `thiserror`-derived `Display` of `CodexErr`; `#[error(transparent)]`
variants render as their payload's own message. -/
def CodexErr.render : CodexErr → String
  | .Stream msg _ => "流在完成前断开:" ++ msg
  | .ConversationNotFound id => "不存在 ID 为 " ++ id ++ " 的会话"
  | .SessionConfiguredNotFirstEvent => "会话配置事件不是流中的第一个事件"
  | .Timeout => "等待子进程退出超时"
  | .Spawn => "进程创建失败:未捕获子进程 stdout/stderr"
  | .Interrupted => "已中断(Ctrl-C)"
  | .UnexpectedStatus status body => "意外的状态 " ++ status ++ ":" ++ body
  | .UsageLimitReached e => e.render
  | .UsageNotIncluded =>
      "如需在 ChatGPT 付费计划中使用 Codex,请升级到 Plus(https://openai.com/chatgpt/pricing)。"
  | .InternalServerError => "当前请求量较高,可能会出现临时错误。"
  | .RetryLimit status => "重试次数已用尽,最后状态:" ++ status
  | .InternalAgentDied => "内部错误；代理循环意外退出"
  | .Sandbox e => "沙箱错误:" ++ e.render
  | .LandlockSandboxExecutableNotProvided => "需要 codex-linux-sandbox 但未提供"
  | .Io e => e
  | .Reqwest e => e
  | .Json e => e
  | .LandlockRuleset e => e
  | .LandlockPathFd e => e
  | .TokioJoin e => e
  | .EnvVar e => e.render

/-- Embedding of `get_error_message_ui` from `core/src/error.rs` lines
216-223: a sandbox `Denied` fault surfaces its captured stderr verbatim, a
sandbox `Timeout` gets a short fixed phrase, everything else renders its
`Display` message. -/
def get_error_message_ui : CodexErr → String
  | .Sandbox (.Denied _ _ stderr) => stderr
  | .Sandbox .Timeout => "错误:命令超时"
  | e => e.render

/-! ## Trust Decision Gate (`tui/src/onboarding/trust_directory.rs`) -/

/-- Embedding of `TrustDirectorySelection`. -/
inductive TrustDirectorySelection where
  | Trust
  | DontTrust
deriving DecidableEq

/-- Embedding of the `TrustDirectoryWidget` struct. Paths are modelled as
strings. -/
structure TrustDirectoryWidget where
  codex_home : String
  cwd : String
  is_git_repo : Bool
  selection : Option TrustDirectorySelection
  highlighted : TrustDirectorySelection
  error : Option String
deriving DecidableEq

/-- The step state consumed by the onboarding screen; only the two values
produced by `TrustDirectoryWidget::get_step_state` are visible from the
embedded file. -/
inductive StepState where
  | InProgress
  | Complete
deriving DecidableEq

/-- Embedding of `crossterm::event::KeyCode`, restricted to its data-free
key variants plus `Char` and `F`; the handler only distinguishes `Up`,
`Down`, `Enter` and specific characters, treating everything else alike. -/
inductive KeyCode where
  | Backspace
  | Enter
  | Left
  | Right
  | Up
  | Down
  | Home
  | End
  | PageUp
  | PageDown
  | Tab
  | BackTab
  | Delete
  | Insert
  | F (n : Nat)
  | Char (c : Char)
  | Null
  | Esc
deriving DecidableEq

/-- Embedding of `crossterm::event::KeyEvent`: the widget reads only the
`code` field; modifiers are carried but ignored by the handler. -/
structure KeyEvent where
  code : KeyCode
  modifiers : Nat
deriving DecidableEq

/-- Environment of external collaborators consumed by the widget:
`resolve_root_git_project_for_trust` (from `codex_core::git_info`) and
`set_project_trusted` (from `codex_core::config`, whose failure is its
rendered I/O error message). -/
structure TrustEnv where
  resolveRootGitProject : String → Option String
  setProjectTrusted : String → String → Except String Unit

/-- A recorded invocation of the trust-store write operation
`set_project_trusted(codex_home, target)`. -/
abbrev TrustWrite := String × String

/-- Embedding of `TrustDirectoryWidget::handle_trust`: resolve the target
as the git repo root falling back to `cwd`, invoke the trust-store write,
on failure record a non-fatal error message, and in every case record the
selection as `Trust`. The returned list holds the write invocations made. -/
def TrustDirectoryWidget.handle_trust (env : TrustEnv) (w : TrustDirectoryWidget) :
    TrustDirectoryWidget × List TrustWrite :=
  let target := (env.resolveRootGitProject w.cwd).getD w.cwd
  let w1 :=
    match env.setProjectTrusted w.codex_home target with
    | .error e => { w with error := some ("未能为……设置信任 " ++ target ++ ": " ++ e) }
    | .ok _ => w
  ({ w1 with selection := some TrustDirectorySelection.Trust },
   [(w.codex_home, target)])

/-- Embedding of `TrustDirectoryWidget::handle_dont_trust`: highlight and
select `DontTrust`; no trust-store write is invoked. -/
def TrustDirectoryWidget.handle_dont_trust (w : TrustDirectoryWidget) :
    TrustDirectoryWidget × List TrustWrite :=
  ({ w with highlighted := TrustDirectorySelection.DontTrust,
            selection := some TrustDirectorySelection.DontTrust }, [])

/-- Embedding of `KeyboardHandler::handle_key_event` for
`TrustDirectoryWidget` (lines 106-124): Up/'k' and Down/'j' move the
highlight, '1'/'2' decide directly, Enter decides according to the
highlight, and every other key leaves the widget untouched. -/
def TrustDirectoryWidget.handle_key_event (env : TrustEnv) (w : TrustDirectoryWidget)
    (key_event : KeyEvent) : TrustDirectoryWidget × List TrustWrite :=
  match key_event.code with
  | KeyCode.Up => ({ w with highlighted := TrustDirectorySelection.Trust }, [])
  | KeyCode.Down => ({ w with highlighted := TrustDirectorySelection.DontTrust }, [])
  | KeyCode.Char c =>
      if c = 'k' then ({ w with highlighted := TrustDirectorySelection.Trust }, [])
      else if c = 'j' then ({ w with highlighted := TrustDirectorySelection.DontTrust }, [])
      else if c = '1' then w.handle_trust env
      else if c = '2' then w.handle_dont_trust
      else (w, [])
  | KeyCode.Enter =>
      match w.highlighted with
      | TrustDirectorySelection.Trust => w.handle_trust env
      | TrustDirectorySelection.DontTrust => w.handle_dont_trust
  | _ => (w, [])

/-- Embedding of `StepStateProvider::get_step_state`: the step is complete
exactly when a selection has been recorded. -/
def TrustDirectoryWidget.get_step_state (w : TrustDirectoryWidget) : StepState :=
  match w.selection with
  | some _ => StepState.Complete
  | none => StepState.InProgress

/-- The four logical inputs the spec says the gate accepts:
move-highlight-to-trust (Up/'k'), move-highlight-to-decline (Down/'j'),
select-option-by-ordinal ('1'/'2'), confirm-highlighted (Enter). -/
def recognizedKey : KeyCode → Bool
  | KeyCode.Up => true
  | KeyCode.Down => true
  | KeyCode.Enter => true
  | KeyCode.Char c => c = 'k' || c = 'j' || c = '1' || c = '2'
  | _ => false

/-! ## Preset catalogues (`common/src/approval_presets.rs`, `model_presets.rs`) -/

/-- Modelled from the spec: `AskForApproval` is declared in
`codex_core::protocol`, outside the provided sources; §3 gives the closed
set of approval modes used by the catalogue: `OnRequest` and `Never`. -/
inductive AskForApproval where
  | OnRequest
  | Never
deriving DecidableEq

/-- Modelled from the spec: `SandboxPolicy` is declared in
`codex_core::protocol`, outside the provided sources; §3 gives the three
restrictiveness levels, each fully determining what the mode allows. -/
inductive SandboxPolicy where
  | ReadOnly
  | WorkspaceWrite
  | DangerFullAccess
deriving DecidableEq

/-- Modelled from the spec: `SandboxPolicy::new_workspace_write_policy`
yields the canonical workspace-write configuration (§4.2). -/
def SandboxPolicy.new_workspace_write_policy : SandboxPolicy :=
  SandboxPolicy.WorkspaceWrite

/-- Modelled from the spec: `ReasoningEffort` from
`codex_core::protocol_config_types`, ordered low→high (§3). -/
inductive ReasoningEffort where
  | Minimal
  | Low
  | Medium
  | High
deriving DecidableEq

/-- Embedding of the `ApprovalPreset` struct. -/
structure ApprovalPreset where
  id : String
  label : String
  description : String
  approval : AskForApproval
  sandbox : SandboxPolicy
deriving DecidableEq

/-- Embedding of the `ModelPreset` struct. -/
structure ModelPreset where
  id : String
  label : String
  description : String
  model : String
  effort : ReasoningEffort
deriving DecidableEq

/-- Embedding of `builtin_approval_presets` from
`common/src/approval_presets.rs`: the static ordered catalogue. -/
def builtin_approval_presets : List ApprovalPreset :=
  [ { id := "read-only",
      label := "只读",
      description := "Codex 可以读取文件并回答问题。进行编辑、运行命令或访问网络需要审批",
      approval := AskForApproval.OnRequest,
      sandbox := SandboxPolicy.ReadOnly },
    { id := "auto",
      label := "自动",
      description := "Codex 可以读取文件、进行编辑，并在工作区内运行命令。对工作区外的操作或访问网络需要审批",
      approval := AskForApproval.OnRequest,
      sandbox := SandboxPolicy.new_workspace_write_policy },
    { id := "full-access",
      label := "完全访问",
      description := "Codex 可以读取文件、进行编辑，并在无需审批的情况下运行带网络访问的命令。请谨慎使用",
      approval := AskForApproval.Never,
      sandbox := SandboxPolicy.DangerFullAccess } ]

/-- Embedding of `builtin_model_presets` from
`common/src/model_presets.rs`: the static ordered catalogue. -/
def builtin_model_presets : List ModelPreset :=
  [ { id := "gpt-5-minimal",
      label := "gpt-5 minimal",
      description := "— 响应最快，推理有限；适合编码、指令或轻量任务",
      model := "gpt-5",
      effort := ReasoningEffort.Minimal },
    { id := "gpt-5-low",
      label := "gpt-5 low",
      description := "— 速度与一定推理的平衡；适合简单问题与简短说明",
      model := "gpt-5",
      effort := ReasoningEffort.Low },
    { id := "gpt-5-medium",
      label := "gpt-5 medium",
      description := "— 默认设置；在推理深度与延迟之间提供良好平衡，适合通用任务",
      model := "gpt-5",
      effort := ReasoningEffort.Medium },
    { id := "gpt-5-high",
      label := "gpt-5 high",
      description := "— 最大化推理深度，适合复杂或含糊的问题",
      model := "gpt-5",
      effort := ReasoningEffort.High } ]

/-! ## Concrete states used by witnesses and counterexamples -/

/-- An environment whose trust-store write succeeds and whose VCS-root
resolution finds no repository. -/
def envOk : TrustEnv :=
  { resolveRootGitProject := fun _ => none,
    setProjectTrusted := fun _ _ => Except.ok () }

/-- An environment whose trust-store write fails with an I/O error and
which resolves the repo root of "/repo/sub" to "/repo". -/
def envFail : TrustEnv :=
  { resolveRootGitProject := fun d => if d = "/repo/sub" then some "/repo" else none,
    setProjectTrusted := fun _ _ => Except.error "io error" }

/-- A widget still awaiting a decision. -/
def wAwait : TrustDirectoryWidget :=
  { codex_home := "/home/user/.codex",
    cwd := "/repo/sub",
    is_git_repo := true,
    selection := none,
    highlighted := TrustDirectorySelection.Trust,
    error := none }

/-- A widget that has already recorded a `Trust` decision. -/
def wDecided : TrustDirectoryWidget :=
  { codex_home := "/home/user/.codex",
    cwd := "/repo/sub",
    is_git_repo := true,
    selection := some TrustDirectorySelection.Trust,
    highlighted := TrustDirectorySelection.Trust,
    error := none }

/-! ## Theorems -/

/-- C1: the reset-countdown phrase is built by decomposing total seconds
into whole days, then whole hours from the remainder, then whole minutes
from the remainder, dropping seconds below one minute; nonzero units are
rendered most-significant first joined by single spaces, with a fixed
less-than-one-minute phrase when all units are zero; and the decomposition
is exact on 30, 300, 12720 and 183900 seconds. -/
theorem format_reset_duration_matches_spec (s : Nat) :
    format_reset_duration s = specCountdownPhrase s ∧
    format_reset_duration 30 = "不到 1 分钟" ∧
    format_reset_duration 300 = "5 分钟" ∧
    format_reset_duration 12720 = "3 小时 32 分钟" ∧
    format_reset_duration 183900 = "2 天 3 小时 5 分钟" := by
  refine ⟨?_, by decide, by decide, by decide, by decide⟩
  simp only [format_reset_duration, specCountdownPhrase,
    Nat.mod_mod_of_dvd s (by norm_num : (3600 : ℕ) ∣ 86400)]
  by_cases hd : s / 86400 = 0 <;> by_cases hh : s % 86400 / 3600 = 0 <;>
    by_cases hm : s % 3600 / 60 = 0 <;>
    simp [hd, hh, hm, Nat.pos_iff_ne_zero]

/-- C2: a sandbox `Denied` fault surfaces its captured stderr verbatim as
the user-facing message (in particular `Denied(126, "", "blocked")` renders
exactly "blocked"), while every other Execution fault renders a fixed
templated message independent of any payload. -/
theorem denied_stderr_verbatim (code : Int) (out err : String) (n : Int)
    (e1 e2 : String) :
    get_error_message_ui (CodexErr.Sandbox (SandboxErr.Denied code out err)) = err ∧
    get_error_message_ui (CodexErr.Sandbox (SandboxErr.Denied 126 "" "blocked")) = "blocked" ∧
    get_error_message_ui (CodexErr.Sandbox SandboxErr.Timeout) = "错误:命令超时" ∧
    get_error_message_ui (CodexErr.Sandbox (SandboxErr.Signal n)) = "沙箱错误:命令被信号终止" ∧
    get_error_message_ui (CodexErr.Sandbox SandboxErr.LandlockRestrict) =
      "沙箱错误:Landlock 未能完全执行所有沙箱规则" ∧
    get_error_message_ui (CodexErr.Sandbox (SandboxErr.SeccompInstall e1)) =
      "沙箱错误:seccomp 安装错误" ∧
    get_error_message_ui (CodexErr.Sandbox (SandboxErr.SeccompBackend e2)) =
      "沙箱错误:seccomp 后端错误" :=
  ⟨rfl, rfl, rfl, rfl, rfl, rfl, rfl⟩

/-- C3: when the trust-store write fails with an I/O error, `handle_trust`
still records the decision as `Trust` in memory, the step completes, and
the failure is surfaced as a non-fatal warning message on the widget. -/
theorem trust_persist_failure_nonfatal (env : TrustEnv) (w : TrustDirectoryWidget)
    (e : String)
    (h : env.setProjectTrusted w.codex_home ((env.resolveRootGitProject w.cwd).getD w.cwd) =
      Except.error e) :
    (w.handle_trust env).1.selection = some TrustDirectorySelection.Trust ∧
    (w.handle_trust env).1.error =
      some ("未能为……设置信任 " ++ (env.resolveRootGitProject w.cwd).getD w.cwd ++ ": " ++ e) ∧
    (w.handle_trust env).1.get_step_state = StepState.Complete := by
  refine ⟨?_, ?_, ?_⟩ <;>
    simp [TrustDirectoryWidget.handle_trust, TrustDirectoryWidget.get_step_state, h]

/-- C3 witness: a concrete failing store records the decision and the
warning. -/
theorem trust_persist_failure_nonfatal_witness :
    (wAwait.handle_trust envFail).1.selection = some TrustDirectorySelection.Trust ∧
    (wAwait.handle_trust envFail).1.error =
      some ("未能为……设置信任 " ++ (envFail.resolveRootGitProject wAwait.cwd).getD wAwait.cwd ++
        ": " ++ "io error") ∧
    (wAwait.handle_trust envFail).1.get_step_state = StepState.Complete :=
  trust_persist_failure_nonfatal envFail wAwait "io error" rfl

/-- C4: the key under which an explicit trust choice is persisted is the
resolved git repository root when one exists, and exactly the current
directory when VCS-root resolution returns nothing. -/
theorem trust_scope_resolution (env : TrustEnv) (w : TrustDirectoryWidget) (r : String) :
    (env.resolveRootGitProject w.cwd = some r →
      (w.handle_trust env).2 = [(w.codex_home, r)]) ∧
    (env.resolveRootGitProject w.cwd = none →
      (w.handle_trust env).2 = [(w.codex_home, w.cwd)]) := by
  constructor
  · intro h
    simp [TrustDirectoryWidget.handle_trust, h]
  · intro h
    simp [TrustDirectoryWidget.handle_trust, h]

/-- C4 witness: trusting the nested directory "/repo/sub" under resolved
root "/repo" writes a record keyed by "/repo"; without a resolved root the
record is keyed by the directory itself. -/
theorem trust_scope_resolution_witness :
    (wAwait.handle_trust envFail).2 = [(wAwait.codex_home, "/repo")] ∧
    (wAwait.handle_trust envOk).2 = [(wAwait.codex_home, wAwait.cwd)] :=
  ⟨(trust_scope_resolution envFail wAwait "/repo").1 rfl,
   (trust_scope_resolution envOk wAwait "").2 rfl⟩

/-- C5: an explicit "do not trust" choice records `DontTrust` without ever
invoking the trust-store write operation (no write event, also via the '2'
key), while an explicit "trust" choice does invoke the write. -/
theorem decline_trust_no_write (env : TrustEnv) (w : TrustDirectoryWidget) (m : Nat) :
    w.handle_dont_trust.2 = [] ∧
    w.handle_dont_trust.1.selection = some TrustDirectorySelection.DontTrust ∧
    (w.handle_key_event env { code := KeyCode.Char '2', modifiers := m }).2 = [] ∧
    (w.handle_key_event env { code := KeyCode.Char '2', modifiers := m }).1.selection =
      some TrustDirectorySelection.DontTrust ∧
    (w.handle_trust env).2 = [(w.codex_home, (env.resolveRootGitProject w.cwd).getD w.cwd)] :=
  ⟨rfl, rfl, rfl, rfl, rfl⟩

/-- C6: the usage-limit message opens with the upgrade-suggestion base
clause exactly for the recognized paid tier `"plus"` and with the generic
limit-reached clause otherwise; when `resets_in_seconds` is absent a fixed
try-again-later closing is appended instead of a countdown, and when
present the countdown phrase is appended. -/
theorem usage_limit_message_structure (plan : Option String) (resets : Option Nat) :
    (plan = some "plus" →
      ∃ tail, UsageLimitReachedError.render ⟨plan, resets⟩ = upgrade_base_clause ++ tail) ∧
    (plan ≠ some "plus" →
      ∃ tail, UsageLimitReachedError.render ⟨plan, resets⟩ = limit_reached_clause ++ tail) ∧
    (plan = some "plus" → resets = none →
      UsageLimitReachedError.render ⟨plan, resets⟩ = upgrade_base_clause ++ "。") ∧
    (plan ≠ some "plus" → resets = none →
      UsageLimitReachedError.render ⟨plan, resets⟩ =
        limit_reached_clause ++ try_again_later_clause) ∧
    (∀ s, plan = some "plus" → resets = some s →
      UsageLimitReachedError.render ⟨plan, resets⟩ =
        upgrade_base_clause ++ ("，大约 " ++ format_reset_duration s ++ " 后重置。")) ∧
    (∀ s, plan ≠ some "plus" → resets = some s →
      UsageLimitReachedError.render ⟨plan, resets⟩ =
        limit_reached_clause ++ ("请在约 " ++ format_reset_duration s ++ " 后重试。")) := by
  refine ⟨?_, ?_, ?_, ?_, ?_, ?_⟩
  · intro h
    cases resets <;> simp [UsageLimitReachedError.render, h]
  · intro h
    cases resets <;> simp [UsageLimitReachedError.render, h]
  · intro h hr
    subst hr
    simp [UsageLimitReachedError.render, h]
  · intro h hr
    subst hr
    simp [UsageLimitReachedError.render, h]
  · intro s h hr
    subst hr
    simp [UsageLimitReachedError.render, h]
  · intro s h hr
    subst hr
    simp [UsageLimitReachedError.render, h]

/-- C6 witness: concrete messages for the recognized tier without a reset
time and for an absent tier with a five-minute reset. -/
theorem usage_limit_message_structure_witness :
    UsageLimitReachedError.render ⟨some "plus", none⟩ = upgrade_base_clause ++ "。" ∧
    UsageLimitReachedError.render ⟨none, some 300⟩ =
      limit_reached_clause ++ ("请在约 " ++ format_reset_duration 300 ++ " 后重试。") :=
  ⟨(usage_limit_message_structure (some "plus") none).2.2.1 rfl rfl,
   (usage_limit_message_structure none (some 300)).2.2.2.2.2 300 (by simp) rfl⟩

/-- Helper: every key event either leaves the recorded selection unchanged
or leaves it holding some decision. -/
theorem handle_key_event_selection_cases (env : TrustEnv) (w : TrustDirectoryWidget)
    (k : KeyEvent) :
    (w.handle_key_event env k).1.selection = w.selection ∨
    ((w.handle_key_event env k).1.selection).isSome = true := by
  rcases k with ⟨code, m⟩
  cases code <;>
    simp [TrustDirectoryWidget.handle_key_event, TrustDirectoryWidget.handle_trust,
      TrustDirectoryWidget.handle_dont_trust]
  case Char c =>
    by_cases hk : c = 'k' <;> by_cases hj : c = 'j' <;>
      by_cases h1 : c = '1' <;> by_cases h2 : c = '2' <;>
      simp [hk, hj, h1, h2, TrustDirectoryWidget.handle_trust,
        TrustDirectoryWidget.handle_dont_trust]
  case Enter =>
    cases w.highlighted <;>
      simp [TrustDirectoryWidget.handle_trust, TrustDirectoryWidget.handle_dont_trust]

/-- C7 counterexample: with a decision already recorded (`Trust`), a
subsequent '2' key event overwrites the recorded decision with `DontTrust`,
so a later key event can change the recorded decision. -/
theorem decided_overwritten_by_later_key :
    wDecided.selection = some TrustDirectorySelection.Trust ∧
    (wDecided.handle_key_event envOk { code := KeyCode.Char '2', modifiers := 0 }).1.selection =
      some TrustDirectorySelection.DontTrust ∧
    some TrustDirectorySelection.DontTrust ≠ some TrustDirectorySelection.Trust :=
  ⟨rfl, rfl, by decide⟩

/-- C7 amended: once a decision has been recorded, no key event returns
the gate to an undecided state — the selection stays `some` and the step
state stays `Complete` — although a further deciding key event may
overwrite which decision is recorded. -/
theorem decided_never_returns_undecided (env : TrustEnv) (w : TrustDirectoryWidget)
    (k : KeyEvent) (h : w.selection.isSome = true) :
    ((w.handle_key_event env k).1.selection).isSome = true ∧
    (w.handle_key_event env k).1.get_step_state = StepState.Complete := by
  have hs : ((w.handle_key_event env k).1.selection).isSome = true := by
    rcases handle_key_event_selection_cases env w k with h1 | h1
    · rw [h1]
      exact h
    · exact h1
  refine ⟨hs, ?_⟩
  rcases Option.isSome_iff_exists.mp hs with ⟨v, hv⟩
  simp [TrustDirectoryWidget.get_step_state, hv]

/-- C7 amended witness: a decided widget stays decided under an Escape key
event. -/
theorem decided_never_returns_undecided_witness :
    ((wDecided.handle_key_event envOk { code := KeyCode.Esc, modifiers := 0 }).1.selection).isSome =
      true ∧
    (wDecided.handle_key_event envOk { code := KeyCode.Esc, modifiers := 0 }).1.get_step_state =
      StepState.Complete :=
  decided_never_returns_undecided envOk wDecided { code := KeyCode.Esc, modifiers := 0 } rfl

/-- C8 counterexample: from an undecided widget, the select-by-ordinal
input '1' changes the trust state — it records a `Trust` decision and
invokes a trust-store write — so ordinal selection is not a transition
that leaves trust state unchanged. -/
theorem ordinal_select_changes_trust_state :
    wAwait.selection = none ∧
    (wAwait.handle_key_event envOk { code := KeyCode.Char '1', modifiers := 0 }).1.selection =
      some TrustDirectorySelection.Trust ∧
    (wAwait.handle_key_event envOk { code := KeyCode.Char '1', modifiers := 0 }).2 =
      [(wAwait.codex_home, wAwait.cwd)] ∧
    some TrustDirectorySelection.Trust ≠ (none : Option TrustDirectorySelection) :=
  ⟨rfl, rfl, rfl, by decide⟩

/-- C8 amended: the gate accepts exactly the four logical inputs
(move-highlight-to-trust via Up/'k', move-highlight-to-decline via
Down/'j', select-by-ordinal via '1'/'2', confirm-highlighted via Enter)
and ignores every other key event entirely; the move-highlight inputs
change only the highlighted option (selection, error and the trust store
untouched), while ordinal selection and confirmation decide. -/
theorem trust_gate_input_surface (env : TrustEnv) (w : TrustDirectoryWidget) (k : KeyEvent) :
    (recognizedKey k.code = false → w.handle_key_event env k = (w, [])) ∧
    ((k.code = KeyCode.Up ∨ k.code = KeyCode.Char 'k') →
      w.handle_key_event env k =
        ({ w with highlighted := TrustDirectorySelection.Trust }, [])) ∧
    ((k.code = KeyCode.Down ∨ k.code = KeyCode.Char 'j') →
      w.handle_key_event env k =
        ({ w with highlighted := TrustDirectorySelection.DontTrust }, [])) ∧
    (k.code = KeyCode.Char '1' → w.handle_key_event env k = w.handle_trust env) ∧
    (k.code = KeyCode.Char '2' → w.handle_key_event env k = w.handle_dont_trust) ∧
    (k.code = KeyCode.Enter →
      w.handle_key_event env k =
        match w.highlighted with
        | TrustDirectorySelection.Trust => w.handle_trust env
        | TrustDirectorySelection.DontTrust => w.handle_dont_trust) := by
  rcases k with ⟨code, m⟩
  refine ⟨?_, ?_, ?_, ?_, ?_, ?_⟩
  · intro h
    cases code <;> simp_all [recognizedKey, TrustDirectoryWidget.handle_key_event]
  · intro h
    rcases h with h | h <;> subst h <;>
      simp [TrustDirectoryWidget.handle_key_event]
  · intro h
    rcases h with h | h <;> subst h <;>
      simp [TrustDirectoryWidget.handle_key_event]
  · intro h
    subst h
    simp [TrustDirectoryWidget.handle_key_event]
  · intro h
    subst h
    simp [TrustDirectoryWidget.handle_key_event]
  · intro h
    subst h
    simp [TrustDirectoryWidget.handle_key_event]

/-- C8 amended witness: an Escape key event is ignored entirely, Up moves
the highlight only, and '2' declines. -/
theorem trust_gate_input_surface_witness :
    wAwait.handle_key_event envOk { code := KeyCode.Esc, modifiers := 0 } = (wAwait, []) ∧
    wAwait.handle_key_event envOk { code := KeyCode.Up, modifiers := 0 } =
      ({ wAwait with highlighted := TrustDirectorySelection.Trust }, []) ∧
    wAwait.handle_key_event envOk { code := KeyCode.Char '2', modifiers := 0 } =
      wAwait.handle_dont_trust :=
  ⟨(trust_gate_input_surface envOk wAwait { code := KeyCode.Esc, modifiers := 0 }).1 rfl,
   (trust_gate_input_surface envOk wAwait { code := KeyCode.Up, modifiers := 0 }).2.1 (Or.inl rfl),
   (trust_gate_input_surface envOk wAwait
      { code := KeyCode.Char '2', modifiers := 0 }).2.2.2.2.1 rfl⟩

/-- C9: in both static catalogues every preset id is non-empty and no two
presets share an id; the catalogues are constants of the embedding, so
every lookup yields the same ordered sequence. -/
theorem preset_catalogue_ids_unique_nonempty :
    (builtin_approval_presets.map ApprovalPreset.id).Nodup ∧
    (builtin_approval_presets.all fun p => !p.id.isEmpty) = true ∧
    (builtin_model_presets.map ModelPreset.id).Nodup ∧
    (builtin_model_presets.all fun p => !p.id.isEmpty) = true := by
  refine ⟨by decide, by decide, by decide, by decide⟩

/-- C10: the approval-preset catalogue pairs `DangerFullAccess` with
exactly one preset — the last one, id "full-access" — which is also the
only preset with approval mode `Never`; every other preset pairs
`OnRequest` with `ReadOnly` or the workspace-write policy, and the
full-access preset is not first in presentation order. -/
theorem full_access_preset_isolated :
    ((builtin_approval_presets.filter fun p =>
        p.sandbox == SandboxPolicy.DangerFullAccess).map ApprovalPreset.id) = ["full-access"] ∧
    ((builtin_approval_presets.filter fun p =>
        p.approval == AskForApproval.Never).map ApprovalPreset.id) = ["full-access"] ∧
    (builtin_approval_presets.getLast?.map ApprovalPreset.id) = some "full-access" ∧
    (builtin_approval_presets.head?.map ApprovalPreset.id) ≠ some "full-access" ∧
    (builtin_approval_presets.all fun p =>
      (p.sandbox == SandboxPolicy.DangerFullAccess && p.approval == AskForApproval.Never) ||
      (p.approval == AskForApproval.OnRequest &&
        (p.sandbox == SandboxPolicy.ReadOnly ||
         p.sandbox == SandboxPolicy.new_workspace_write_policy))) = true := by
  refine ⟨by decide, by decide, by decide, by decide, by decide⟩
